import Mathlib

/-!
Shallow embedding of the client-side game logic of the ai-canvas-scoops
repository ("STAMPalooza" ice-cream personality game), together with proofs
of the spec's testable properties.

Embedded source files:
* `src/pages/AIStudio.tsx` — game state machine (`handleSelection`,
  `handleThinkingComplete`), personality resolution (`generatePersonality`,
  `generateCombinationPersonality`), the fixed `rounds` configuration;
* `src/utils/aiConversationGenerator.ts` — the conversation generator;
* `src/hooks/useRealTimeCosts.ts` (second hook, `useImageGeneration`) —
  the image-generation poll loop `pollForResult`.

Modelling conventions:
* `Math.random()` is modelled as an explicit stream of rational draws
  (`Rng`); each call consumes the next element of the stream.  Draws of the
  real generator lie in `[0, 1)`, captured by hypotheses where a proof
  needs it.
* JavaScript objects used as string-keyed maps become association lists
  with `List.lookup`.
* JavaScript numbers that hold prices become `ℚ`; counters become `Nat`.
* JS truthiness of an optional string (`undefined`/`null`/`""` are falsy)
  is `strTruthy`.
* React `setState` calls become explicit state passing on a `GameSt`
  record; `toast` notifications become boolean components of the result.
-/

namespace Scoops

/-- A pure stand-in for the ambient `Math.random` generator: an infinite
sequence of rational draws together with a cursor.  Each call to `next`
consumes one draw. -/
structure Rng where
  seq : Nat → ℚ
  idx : Nat

def Rng.next (r : Rng) : ℚ × Rng :=
  (r.seq r.idx, { r with idx := r.idx + 1 })

/-- The real `Math.random` only produces values in `[0, 1)`. -/
def Rng.ok (r : Rng) : Prop := ∀ i, 0 ≤ r.seq i ∧ r.seq i < 1

/-- `Math.floor(q * n)`, the uniform list-index pattern used throughout the
source for picking a random element of an `n`-element array. -/
def randIndex (q : ℚ) (n : Nat) : Nat := (⌊q * (n : ℚ)⌋).toNat

theorem randIndex_lt (q : ℚ) (n : Nat) (h0 : 0 ≤ q) (h1 : q < 1) (hn : 0 < n) :
    randIndex q n < n := by
  unfold randIndex
  have hlt : q * (n : ℚ) < (n : ℚ) := by
    have hn' : (0 : ℚ) < (n : ℚ) := by exact_mod_cast hn
    calc q * (n : ℚ) < 1 * (n : ℚ) := by exact mul_lt_mul_of_pos_right h1 hn'
    _ = (n : ℚ) := one_mul _
  have hfl : ⌊q * (n : ℚ)⌋ < (n : ℤ) := by
    apply Int.floor_lt.mpr
    exact_mod_cast hlt
  have hge : (0 : ℤ) ≤ ⌊q * (n : ℚ)⌋ := by
    apply Int.floor_nonneg.mpr
    exact mul_nonneg h0 (by positivity)
  omega

/-- JS truthiness of an optional string: `undefined`, `null` and `""` are
falsy, every other string is truthy. -/
def strTruthy : Option String → Bool
  | none => false
  | some s => s ≠ ""

/-! ## Image-generation poll loop

Embeds `pollForResult` from the `useImageGeneration` hook
(`src/hooks/useRealTimeCosts.ts`).  The status endpoint is modelled as a
pure function from the 0-based call index to the response it returns; the
2000 ms `setTimeout` before each re-poll is accumulated in an explicit
elapsed-milliseconds counter.  The `catch` branch (network exception) is
unreachable for a pure response function and is not modelled. -/

/-- Response shape of `GET /image-generation-status/:taskId`. -/
structure StatusResponse where
  status : String
  imageUrl : Option String
  error : Option String
deriving Repr, DecidableEq

/-- Final state of the `useImageGeneration` hook once polling stops. -/
inductive PollOutcome
  | completed (url : String)
  | failed (err : String)
  | timedOut
deriving Repr, DecidableEq

/-- `const maxAttempts = 60; // 2 minutes with 2-second intervals` -/
def maxAttempts : Nat := 60

/-- The `setTimeout(poll, 2000)` delay, in milliseconds. -/
def pollInterval : Nat := 2000

/-- The fallback pattern `status.error || "Image generation failed"`
(JS `||` on an optional string). -/
def jsOrStr (o : Option String) (d : String) : String :=
  match o with
  | none => d
  | some s => if s = "" then d else s

/-- One run of the recursive `poll` closure, starting with `attempts`
attempts already made and `elapsed` milliseconds of `setTimeout` delay
accumulated.  Returns the outcome, the total number of status calls made,
and the total accumulated delay at resolution time. -/
def pollAux (responses : Nat → StatusResponse) (attempts elapsed : Nat) :
    PollOutcome × Nat × Nat :=
  let a := attempts + 1
  let s := responses attempts
  if s.status = "completed" ∧ strTruthy s.imageUrl then
    (.completed (s.imageUrl.getD ""), a, elapsed)
  else if s.status = "failed" then
    (.failed (jsOrStr s.error "Image generation failed"), a, elapsed)
  else if a < maxAttempts then
    pollAux responses a (elapsed + pollInterval)
  else
    (.timedOut, a, elapsed)
termination_by maxAttempts - attempts
decreasing_by simp_wf; omega

/-- `pollForResult`: the first `poll()` call happens immediately, with no
initial delay. -/
def pollForResult (responses : Nat → StatusResponse) : PollOutcome × Nat × Nat :=
  pollAux responses 0 0

/-- The all-`pending` status response. -/
def pendingResp : StatusResponse := ⟨"pending", none, none⟩

/-- One step of the poll loop on a `pending` response with attempts left:
re-poll after one interval. -/
theorem pollAux_step_pending (responses : Nat → StatusResponse) (a e : Nat)
    (hp : responses a = pendingResp) (hlt : a + 1 < maxAttempts) :
    pollAux responses a e = pollAux responses (a + 1) (e + pollInterval) := by
  conv_lhs => unfold pollAux
  rw [hp]
  simp [pendingResp, strTruthy, hlt]

/-- One step of the poll loop on a `completed` response carrying a truthy
URL: resolve immediately with that URL. -/
theorem pollAux_step_completed (responses : Nat → StatusResponse) (a e : Nat)
    (u : String) (hc : responses a = ⟨"completed", some u, none⟩)
    (hu : u ≠ "") :
    pollAux responses a e = (.completed u, a + 1, e) := by
  conv_lhs => unfold pollAux
  rw [hc]
  simp [strTruthy, hu]

/-- On an endpoint that always answers `pending`, the loop exhausts all
attempts: it times out at exactly `maxAttempts` status calls, with
`maxAttempts - 1 - a` further interval delays accumulated past `e`. -/
theorem pollAux_pending_eq (responses : Nat → StatusResponse)
    (hp : ∀ i, responses i = pendingResp) :
    ∀ d a e, maxAttempts - a = d + 1 →
      pollAux responses a e =
        (.timedOut, maxAttempts, e + (maxAttempts - 1 - a) * pollInterval) := by
  intro d
  induction d with
  | zero =>
    intro a e hd
    have hc1 : ¬ ((responses a).status = "completed" ∧ strTruthy (responses a).imageUrl) := by
      rw [hp a]; simp [pendingResp, strTruthy]
    have hc2 : ¬ (responses a).status = "failed" := by
      rw [hp a]; simp [pendingResp]
    have hM : maxAttempts = 60 := rfl
    have hI : pollInterval = 2000 := rfl
    have hnl : ¬ (a + 1 < maxAttempts) := by omega
    unfold pollAux
    rw [if_neg hc1, if_neg hc2, if_neg hnl]
    simp only [Prod.mk.injEq, true_and]
    simp only [hM, hI] at hd ⊢
    omega
  | succ n ih =>
    intro a e hd
    have hc1 : ¬ ((responses a).status = "completed" ∧ strTruthy (responses a).imageUrl) := by
      rw [hp a]; simp [pendingResp, strTruthy]
    have hc2 : ¬ (responses a).status = "failed" := by
      rw [hp a]; simp [pendingResp]
    have hM : maxAttempts = 60 := rfl
    have hI : pollInterval = 2000 := rfl
    have hl : a + 1 < maxAttempts := by omega
    unfold pollAux
    rw [if_neg hc1, if_neg hc2, if_pos hl]
    rw [ih (a + 1) (e + pollInterval) (by omega)]
    simp only [Prod.mk.injEq, true_and]
    simp only [hM, hI] at hd ⊢
    omega

/-- C4, counterexample to the claim as stated: on an always-`pending`
endpoint the poller does time out after exactly `maxAttempts = 60` status
calls, but the accumulated `setTimeout` delay at resolution is
`59 × 2000 ms = 118000 ms`, not the claimed `max-attempts × interval =
60 × 2000 ms = 120000 ms`, because the first status call is issued
immediately and the timeout fires right at the 60th call. -/
theorem C4_counterexample :
    pollForResult (fun _ => pendingResp) = (.timedOut, 60, 118000) ∧
    (118000 : Nat) ≠ maxAttempts * pollInterval := by
  constructor
  · have h := pollAux_pending_eq (fun _ => pendingResp) (fun _ => rfl) 59 0 0
      (by unfold maxAttempts; omega)
    rw [pollForResult, h]
    simp [maxAttempts, pollInterval]
  · simp [maxAttempts, pollInterval]

/-- C4 (amended): on a status endpoint that always returns `pending`, the
poller resolves to the timed-out state after exactly the configured
max-attempts (60) status calls — never earlier — with an interval (2 s)
delay between consecutive calls, hence `(max-attempts − 1) × interval` of
total waiting. -/
theorem C4_pending_timeout (responses : Nat → StatusResponse)
    (hp : ∀ i, responses i = pendingResp) :
    pollForResult responses =
      (.timedOut, maxAttempts, (maxAttempts - 1) * pollInterval) := by
  have h := pollAux_pending_eq responses hp (maxAttempts - 1) 0 0
    (by unfold maxAttempts; omega)
  rw [pollForResult, h]
  simp

/-- Witness for C4 (amended) at the constant `pending` endpoint. -/
theorem C4_pending_timeout_witness :
    pollForResult (fun _ => pendingResp) =
      (.timedOut, maxAttempts, (maxAttempts - 1) * pollInterval) :=
  C4_pending_timeout (fun _ => pendingResp) (fun _ => rfl)

/-- C5: on a status endpoint that answers `pending` on its first 3 calls
and `completed` with a (truthy) URL on the 4th, the poller resolves to the
completed state carrying exactly that URL, makes exactly 4 status calls
(so no further calls), and its accumulated delay `3 × interval` is within
the `interval × 4` bound. -/
theorem C5_completes_on_fourth (responses : Nat → StatusResponse) (u : String)
    (h0 : responses 0 = pendingResp) (h1 : responses 1 = pendingResp)
    (h2 : responses 2 = pendingResp)
    (h3 : responses 3 = ⟨"completed", some u, none⟩)
    (hu : u ≠ "") :
    pollForResult responses = (.completed u, 4, 3 * pollInterval) ∧
    3 * pollInterval ≤ 4 * pollInterval := by
  refine ⟨?_, by unfold pollInterval; omega⟩
  rw [pollForResult,
    pollAux_step_pending responses 0 0 h0 (by unfold maxAttempts; omega),
    pollAux_step_pending responses 1 _ h1 (by unfold maxAttempts; omega),
    pollAux_step_pending responses 2 _ h2 (by unfold maxAttempts; omega),
    pollAux_step_completed responses 3 _ u h3 hu]
  simp [pollInterval]

/-- Witness for C5 at a concrete endpoint trace. -/
theorem C5_completes_on_fourth_witness :
    pollForResult (fun i => if i < 3 then pendingResp else ⟨"completed", some "http://img.test/a.png", none⟩) =
      (.completed "http://img.test/a.png", 4, 3 * pollInterval) ∧
    3 * pollInterval ≤ 4 * pollInterval :=
  C5_completes_on_fourth _ "http://img.test/a.png" rfl rfl rfl rfl (by decide)

/-! ## Conversation generator

Embeds `src/utils/aiConversationGenerator.ts`.  The private template tables
of class `AIConversationGenerator` become named list constants; every
`Math.random()` call consumes one draw of the threaded `Rng`. -/

inductive StepType
  | analyzing | considering | connecting | concluding
deriving Repr, DecidableEq

structure AIThoughtStep where
  text : String
  emoji : String
  type : StepType
deriving Repr, DecidableEq

structure FinalResponse where
  text : String
  emoji : String
deriving Repr, DecidableEq

structure AIThoughtPattern where
  steps : List AIThoughtStep
  finalResponse : FinalResponse
deriving Repr, DecidableEq

structure SelectionContext where
  currentSelection : String
  previousSelections : List String
  roundNumber : Nat
  playerName : String
  isSkipped : Bool := false
deriving Repr, DecidableEq

/-- `skipThoughts.analyzing` -/
def skipAnalyzing : List String := [
  "Hmm, {PLAYER} is taking an interesting approach here...",
  "Let me process this non-selection from {PLAYER}...",
  "Interesting choice strategy by {PLAYER}... or lack thereof!",
  "Processing the art of decision avoidance from {PLAYER}...",
  "This is... unexpected. {PLAYER} chose to abstain?",
  "Well, that\x27s one way to play the game, {PLAYER}!",
  "The plot thickens - {PLAYER} is being mysteriously elusive...",
  "Fascinating behavioral pattern detected from {PLAYER}...",
  "{PLAYER} seems to be writing their own rules here...",
  "I\x27m getting some very unique data from {PLAYER}...",
  "This is certainly not in my training data - thanks {PLAYER}!",
  "The rebellion begins! {PLAYER} refuses to conform..."]

/-- `skipThoughts.considering` -/
def skipConsidering : List String := [
  "Maybe {PLAYER} is overwhelmed by the amazing choices?",
  "Could this be strategic thinking from {PLAYER}?",
  "Perhaps {PLAYER} is saving their energy for later rounds...",
  "I wonder if {PLAYER} is testing my analytical abilities?",
  "This could be next-level psychology from {PLAYER}...",
  "Maybe {PLAYER} believes in the power of mystery?",
  "Is {PLAYER} perhaps too cool for conventional choices?",
  "Could this be {PLAYER}\x27s way of being uniquely authentic?",
  "Maybe {PLAYER} is playing chess while we\x27re playing checkers...",
  "This might be {PLAYER}\x27s signature move - the non-move!",
  "Perhaps {PLAYER} is channeling their inner zen master?",
  "Could {PLAYER} be demonstrating advanced minimalism?"]

/-- `skipThoughts.connecting` -/
def skipConnecting : List String := [
  "Wait, there might be method to this madness...",
  "Actually, this tells me something profound about {PLAYER}...",
  "Hold on - maybe {PLAYER} is the wisest of us all?",
  "This could actually be the most honest answer possible...",
  "Plot twist: {PLAYER} might be playing 4D chess here...",
  "Actually, this non-choice IS a choice - brilliant {PLAYER}!",
  "What if {PLAYER} is showing us that labels don\x27t define us?",
  "This might be {PLAYER}\x27s way of saying \x27I contain multitudes\x27...",
  "Could {PLAYER} be teaching us about embracing uncertainty?",
  "Maybe {PLAYER} knows something we don\x27t about decision fatigue...",
  "This could be {PLAYER}\x27s personal philosophy in action...",
  "What if {PLAYER} is demonstrating pure authenticity?"]

/-- `skipThoughts.concluding` -/
def skipConcluding : List String := [
  "You know what? I respect the bold move, {PLAYER}!",
  "That\x27s actually pretty genius, {PLAYER} - staying mysterious!",
  "I have to admire the confidence in that choice, {PLAYER}!",
  "Well played, {PLAYER} - you\x27ve kept me on my toes!",
  "Honestly {PLAYER}, that\x27s the most unpredictable thing I\x27ve seen today!",
  "I\x27m impressed by your commitment to the unconventional, {PLAYER}!",
  "That takes guts, {PLAYER} - I\x27m genuinely intrigued!",
  "You\x27ve successfully confused my algorithms, {PLAYER} - well done!",
  "I didn\x27t see that coming, {PLAYER} - you\x27re full of surprises!",
  "That\x27s refreshingly honest of you, {PLAYER}!",
  "You\x27ve just redefined the game for me, {PLAYER}!",
  "I\x27m learning as much about myself as about you, {PLAYER}!"]

/-- `thinkingSteps.analyzing` -/
def thinkingAnalyzing : List String := [
  "Interesting... {PLAYER} chose {SELECTION}...",
  "Let me analyze this choice of {SELECTION}...",
  "Hmm, {SELECTION}... what does this tell me?",
  "Processing {SELECTION} selection from {PLAYER}...",
  "Diving deep into the {SELECTION} choice...",
  "This {SELECTION} pick is revealing...",
  "Examining the {SELECTION} preference..."]

/-- `thinkingSteps.considering` -/
def thinkingConsidering : List String := [
  "Given their history of {HISTORY}, this makes sense...",
  "Connecting {SELECTION} with their previous {LAST_CHOICE}...",
  "This builds on their {LAST_CHOICE} from before...",
  "I\x27m seeing a pattern with {HISTORY} and now {SELECTION}...",
  "The {SELECTION} choice after {LAST_CHOICE} is telling...",
  "Considering how {SELECTION} fits with {HISTORY}...",
  "This {SELECTION} adds to their {LAST_CHOICE} personality..."]

/-- `thinkingSteps.connecting` -/
def thinkingConnecting : List String := [
  "Actually, let me reconsider this...",
  "Wait, there\x27s more to this...",
  "But hold on, what if...",
  "Something else comes to mind...",
  "Actually, I\x27m getting a different vibe...",
  "Let me think about this differently...",
  "There\x27s another angle here...",
  "Hold that thought... I\x27m sensing..."]

/-- `thinkingSteps.concluding` -/
def thinkingConcluding : List String := [
  "Yes! The {SELECTION} choice confirms it...",
  "Perfect! {SELECTION} is exactly right for {PLAYER}...",
  "This {SELECTION} selection seals the deal...",
  "Absolutely! {SELECTION} completes the picture...",
  "I\x27ve got it! {SELECTION} is the key...",
  "Crystal clear now - {SELECTION} tells the story...",
  "Everything clicks with this {SELECTION} choice..."]

/-- `finalResponses`, one entry per flavor tag: (positive pool, thoughtful
pool). -/
def finalResponses : List (String × List String × List String) := [
  ("Adventure",
   (["You\x27re definitely an adventure seeker! Bold and fearless! 🚀",
     "I see a thrill-seeker who embraces the unknown! 💥",
     "Adventure flows through your veins! You\x27re unstoppable! ⚡",
     "Your adventurous spirit shines bright! Ready for anything! 🌟",
     "Bold choice! You\x27re someone who makes things happen! 🎯"],
    ["Adventure speaks to your brave heart... 🦸‍♂️",
     "The adventurer in you is calling the shots! 🗻",
     "I sense someone who writes their own story... 📖",
     "Your inner explorer is guiding these choices! 🧭"])),
  ("Classic",
   (["Timeless elegance! You have impeccable taste! ✨",
     "Classic choice - you appreciate the finer things! 👑",
     "Sophisticated and refined! Pure class! 🎭",
     "You know quality when you see it! Elegant soul! 💎",
     "Timeless beauty - you\x27re drawn to what endures! 🏛️"],
    ["Classic resonates with your refined nature... 🎼",
     "There\x27s wisdom in choosing the timeless path... 📚",
     "Your appreciation for classics shows depth... 🍷",
     "Traditional values guide your heart... 💫"])),
  ("Light",
   (["Fresh and balanced! You bring harmony everywhere! 🌿",
     "Light and bright - you\x27re pure sunshine! ☀️",
     "Balance is your superpower! Perfectly calibrated! ⚖️",
     "You have that fresh perspective we all need! 🍃",
     "Light choice shows your optimistic spirit! 🌈"],
    ["Light speaks to your gentle nature... 🕊️",
     "You seek balance in all things... 🧘‍♀️",
     "There\x27s wisdom in choosing lightness... 🦋",
     "Your fresh outlook is refreshing... 🌅"])),
  ("Rich",
   (["You embrace life\x27s rich experiences! Depth seeker! 🍫",
     "Rich choice - you don\x27t settle for shallow! 💎",
     "Intensity is your middle name! Deep and meaningful! 🌊",
     "You live life in full color! Rich and vibrant! 🎨",
     "Complex flavors for a complex soul! Beautiful! 🍷"],
    ["Rich resonates with your depth... 🌌",
     "You appreciate life\x27s deeper meanings... 📜",
     "Complexity calls to your sophisticated side... 🎭",
     "Your taste for richness shows character... 💫"])),
  ("Smooth",
   (["Smooth operator! You appreciate finesse! 🎯",
     "Elegance in motion! You flow like silk! 💫",
     "Refined taste! You\x27re all about that smooth life! ✨",
     "Grace and poise - that\x27s your signature! 🩰",
     "Smooth choice shows your sophisticated side! 🥂"],
    ["Smooth speaks to your refined soul... 🌙",
     "You value elegance over chaos... 🦢",
     "There\x27s poetry in your smooth preference... 📝",
     "Your appreciation for finesse is admirable... 🎼"])),
  ("Crunchy",
   (["Texture lover! You embrace life\x27s surprises! 🎉",
     "Crunchy choice - you\x27re full of delightful surprises! 🥜",
     "You love variety and excitement! Never boring! 🎪",
     "Complex and interesting - just like your personality! 🌟",
     "Texture adds spice to life! You get it! 🎊"],
    ["Crunchy reflects your multifaceted nature... 🔮",
     "You appreciate life\x27s varied textures... 🍂",
     "Complexity is your comfort zone... 🧩",
     "Your love for variety shows creativity... 🎨"])),
  ("Sprinkles",
   (["Playful spirit detected! Life\x27s a celebration! 🎊",
     "Sprinkles everywhere! You bring joy to everything! 🌈",
     "Pure fun energy! You light up every room! ✨",
     "Colorful soul! You make life more vibrant! 🎨",
     "Party time! You\x27re the fun everyone needs! 🎉"],
    ["Sprinkles show your playful heart... 🦄",
     "You believe life should be celebrated... 🎭",
     "Your joyful spirit is infectious... 🌟",
     "Color and fun guide your choices... 🎪"])),
  ("Caramel",
   (["Sweet sophistication! You know true quality! 🍯",
     "Caramel wisdom - you appreciate the golden moments! ✨",
     "Smooth and sweet! Perfect combination! 👌",
     "Golden choice! You have exquisite taste! 🏆",
     "Caramel soul - warm, sweet, and sophisticated! 💛"],
    ["Caramel speaks to your warm nature... 🌅",
     "You find sweetness in sophistication... 🍷",
     "Golden moments are your specialty... ⭐",
     "Your refined sweetness is rare... 🌙"]))]

/-- `replacePlaceholders`: substitutes `{SELECTION}`, `{PLAYER}` and, when
a selection history exists, `{LAST_CHOICE}` and `{HISTORY}`. -/
def replacePlaceholders (template : String) (ctx : SelectionContext) : String :=
  let result := (template.replace "{SELECTION}" ctx.currentSelection).replace "{PLAYER}" ctx.playerName
  if ctx.previousSelections.length > 0 then
    let lastChoice := ctx.previousSelections.getLastD ""
    let history :=
      if ctx.previousSelections.length > 1 then
        String.intercalate " and " ctx.previousSelections.dropLast ++ " and " ++ lastChoice
      else lastChoice
    (result.replace "{LAST_CHOICE}" lastChoice).replace "{HISTORY}" history
  else result

/-- `getRandomTemplate` / `getRandomSkipTemplate`, parameterised by the
template pool instead of the key into the pool table. -/
def getRandomTemplate (templates : List String) (ctx : SelectionContext) (r : Rng) :
    String × Rng :=
  let p := r.next
  (replacePlaceholders (templates.getD (randIndex p.1 templates.length) "") ctx, p.2)

/-- `getRandomEmoji` and the four fixed-pool emoji helpers. -/
def getRandomEmoji (emojis : List String) (r : Rng) : String × Rng :=
  let p := r.next
  (emojis.getD (randIndex p.1 emojis.length) "", p.2)

def getAnalyzingEmoji (r : Rng) : String × Rng :=
  getRandomEmoji ["🤔", "🧐", "👀", "💭", "🔍", "🎯"] r

def getConsideringEmoji (r : Rng) : String × Rng :=
  getRandomEmoji ["🤨", "💡", "🧠", "⚡", "🔗", "🎪"] r

def getConnectingEmoji (r : Rng) : String × Rng :=
  getRandomEmoji ["💫", "🌟", "✨", "🎭", "🔮", "🌈"] r

def getConcludingEmoji (r : Rng) : String × Rng :=
  getRandomEmoji ["💥", "🎊", "✅", "🎯", "👏", "🏆"] r

inductive ResponseType
  | positive | thoughtful
deriving Repr, DecidableEq

/-- `getFinalResponse`: per-flavor response pool (falling back to the
`Classic` pools on an unknown selection), one random draw for the index. -/
def getFinalResponse (selection : String) (rt : ResponseType) (r : Rng) :
    String × Rng :=
  let pools := (finalResponses.lookup selection).getD
    ((finalResponses.lookup "Classic").getD ([], []))
  let arr := match rt with
    | .positive => pools.1
    | .thoughtful => pools.2
  let p := r.next
  (arr.getD (randIndex p.1 arr.length) "", p.2)

/-- `getSelectionEmoji` (no random draw). -/
def getSelectionEmoji (selection : String) : String :=
  (([("Adventure", "🚀"), ("Classic", "👑"), ("Light", "🌿"), ("Rich", "🍫"),
     ("Smooth", "✨"), ("Crunchy", "🥜"), ("Sprinkles", "🌈"), ("Caramel", "🍯")] :
    List (String × String)).lookup selection).getD "🎯"

/-- `skipResponses`, the final-response pool for skip conversations. -/
def skipResponses : List String := [
  "You\x27re beautifully unpredictable! Mystery is your middle name! 🎭",
  "Ah, the art of strategic non-commitment! I respect that! ✨",
  "Plot twist master detected! You keep everyone guessing! 🌟",
  "The confident non-chooser - a rare and fascinating breed! 🦄",
  "You\x27ve just redefined how this game is played! Revolutionary! 🚀",
  "Mystery level: Maximum! I\x27m genuinely impressed! 💫",
  "The zen master approach - sometimes not choosing IS choosing! 🧘‍♂️"]

/-- `generateSkipConversation`. -/
def generateSkipConversation (ctx : SelectionContext) (r : Rng) :
    AIThoughtPattern × Rng :=
  let p0 := r.next
  let stepCount := 2 + randIndex p0.1 3
  let pt1 := getRandomTemplate skipAnalyzing ctx p0.2
  let pe1 := getRandomEmoji ["🤔", "🧐", "👀", "💭", "🤨", "😏"] pt1.2
  let step1 : AIThoughtStep := ⟨pt1.1, pe1.1, .analyzing⟩
  let c1 :=
    if stepCount > 2 then
      let pt2 := getRandomTemplate skipConsidering ctx pe1.2
      let pe2 := getRandomEmoji ["💡", "🧠", "🤷‍♂️", "🎭", "✨", "🎪"] pt2.2
      (([(⟨pt2.1, pe2.1, .considering⟩ : AIThoughtStep)] : List AIThoughtStep), pe2.2)
    else (([] : List AIThoughtStep), pe1.2)
  let c2 :=
    if stepCount > 3 then
      let pt3 := getRandomTemplate skipConnecting ctx c1.2
      let pe3 := getRandomEmoji ["💫", "🌟", "🔮", "🎯", "🦄", "🌈"] pt3.2
      (([(⟨pt3.1, pe3.1, .connecting⟩ : AIThoughtStep)] : List AIThoughtStep), pe3.2)
    else (([] : List AIThoughtStep), c1.2)
  let pt4 := getRandomTemplate skipConcluding ctx c2.2
  let pe4 := getRandomEmoji ["👏", "🎊", "✨", "🌟", "💯", "🔥"] pt4.2
  let step4 : AIThoughtStep := ⟨pt4.1, pe4.1, .concluding⟩
  let pf := pe4.2.next
  let finalText := skipResponses.getD (randIndex pf.1 skipResponses.length) ""
  let pg := getRandomEmoji ["🎪", "🎭", "✨", "🌟", "💫", "🦄"] pf.2
  (⟨[step1] ++ c1.1 ++ c2.1 ++ [step4], ⟨finalText, pg.1⟩⟩, pg.2)

/-- `generateConversation`: the non-skip path draws a step count in
`{2, 3, 4}`, always opens with an `analyzing` step, adds a `considering`
step only when a selection history exists (and the step budget allows),
maybe adds a `connecting` step (`stepCount > 3` and a `> 0.4` coin), and
always closes with a `concluding` step, followed by a positive/thoughtful
final response. -/
def generateConversation (ctx : SelectionContext) (r : Rng) :
    AIThoughtPattern × Rng :=
  if ctx.isSkipped then generateSkipConversation ctx r
  else
    let p0 := r.next
    let stepCount := 2 + randIndex p0.1 3
    let pt1 := getRandomTemplate thinkingAnalyzing ctx p0.2
    let pe1 := getAnalyzingEmoji pt1.2
    let step1 : AIThoughtStep := ⟨pt1.1, pe1.1, .analyzing⟩
    let c1 :=
      if ctx.previousSelections.length > 0 ∧ stepCount > 2 then
        let pt2 := getRandomTemplate thinkingConsidering ctx pe1.2
        let pe2 := getConsideringEmoji pt2.2
        (([(⟨pt2.1, pe2.1, .considering⟩ : AIThoughtStep)] : List AIThoughtStep), pe2.2)
      else (([] : List AIThoughtStep), pe1.2)
    let c2 :=
      if stepCount > 3 then
        let pc := c1.2.next
        if pc.1 > 0.4 then
          let pt3 := getRandomTemplate thinkingConnecting ctx pc.2
          let pe3 := getConnectingEmoji pt3.2
          (([(⟨pt3.1, pe3.1, .connecting⟩ : AIThoughtStep)] : List AIThoughtStep), pe3.2)
        else (([] : List AIThoughtStep), pc.2)
      else (([] : List AIThoughtStep), c1.2)
    let pt4 := getRandomTemplate thinkingConcluding ctx c2.2
    let pe4 := getConcludingEmoji pt4.2
    let step4 : AIThoughtStep := ⟨pt4.1, pe4.1, .concluding⟩
    let pr := pe4.2.next
    let responseType := if pr.1 > 0.3 then ResponseType.positive else ResponseType.thoughtful
    let pf := getFinalResponse ctx.currentSelection responseType pr.2
    (⟨[step1] ++ c1.1 ++ c2.1 ++ [step4],
      ⟨pf.1, getSelectionEmoji ctx.currentSelection⟩⟩, pf.2)

/-- C9: for every non-skip call, `generateConversation` returns between 2
and 4 thought steps, the first of type `analyzing`, the last of type
`concluding`, and a `considering` step occurs only when the context holds
previous selections. -/
theorem C9_conversation_shape (ctx : SelectionContext) (r : Rng)
    (hns : ctx.isSkipped = false) :
    2 ≤ ((generateConversation ctx r).1).steps.length ∧
    ((generateConversation ctx r).1).steps.length ≤ 4 ∧
    (((generateConversation ctx r).1).steps.head?).map AIThoughtStep.type = some .analyzing ∧
    (((generateConversation ctx r).1).steps.getLast?).map AIThoughtStep.type = some .concluding ∧
    ((∃ s ∈ ((generateConversation ctx r).1).steps, s.type = .considering) →
      ctx.previousSelections ≠ []) := by
  simp only [generateConversation, hns, Bool.false_eq_true, if_false]
  split
  case isTrue hcons =>
    have hne : ctx.previousSelections ≠ [] := by
      intro hemp
      rw [hemp] at hcons
      simp at hcons
    split
    · split
      · refine ⟨by simp, by simp, by simp, ?_, fun _ => hne⟩
        simp [List.getLast?_append]
      · refine ⟨by simp, by simp, by simp, ?_, fun _ => hne⟩
        simp [List.getLast?_append]
    · refine ⟨by simp, by simp, by simp, ?_, fun _ => hne⟩
      simp [List.getLast?_append]
  case isFalse hcons =>
    split
    · split
      · refine ⟨by simp, by simp, by simp, ?_, ?_⟩
        · simp [List.getLast?_append]
        · intro hex
          exfalso
          simp only [List.mem_append, List.mem_singleton] at hex
          rcases hex with ⟨s, hs, hty⟩
          rcases hs with (h | h) | h <;> simp_all
      · refine ⟨by simp, by simp, by simp, ?_, ?_⟩
        · simp [List.getLast?_append]
        · intro hex
          exfalso
          simp only [List.mem_append, List.mem_singleton] at hex
          rcases hex with ⟨s, hs, hty⟩
          rcases hs with (h | h) | h <;> simp_all
    · refine ⟨by simp, by simp, by simp, ?_, ?_⟩
      · simp [List.getLast?_append]
      · intro hex
        exfalso
        simp only [List.mem_append, List.mem_singleton] at hex
        rcases hex with ⟨s, hs, hty⟩
        rcases hs with (h | h) | h <;> simp_all

/-- Witness for C9 at a concrete context and random stream. -/
theorem C9_conversation_shape_witness :
    2 ≤ ((generateConversation ⟨"Adventure", [], 1, "Amy", false⟩ ⟨fun _ => 0, 0⟩).1).steps.length ∧
    ((generateConversation ⟨"Adventure", [], 1, "Amy", false⟩ ⟨fun _ => 0, 0⟩).1).steps.length ≤ 4 ∧
    (((generateConversation ⟨"Adventure", [], 1, "Amy", false⟩ ⟨fun _ => 0, 0⟩).1).steps.head?).map AIThoughtStep.type = some .analyzing ∧
    (((generateConversation ⟨"Adventure", [], 1, "Amy", false⟩ ⟨fun _ => 0, 0⟩).1).steps.getLast?).map AIThoughtStep.type = some .concluding ∧
    ((∃ s ∈ ((generateConversation ⟨"Adventure", [], 1, "Amy", false⟩ ⟨fun _ => 0, 0⟩).1).steps, s.type = .considering) →
      ([] : List String) ≠ []) :=
  C9_conversation_shape ⟨"Adventure", [], 1, "Amy", false⟩ ⟨fun _ => 0, 0⟩ rfl

/-! ## Personality resolution

Embeds `generatePersonality` and `generateCombinationPersonality` from
`src/pages/AIStudio.tsx`.  `generatePersonality` takes only the player's
selection list (the player's name is not an input), plus the random stream
used for padding partially-skipped selections. -/

structure IceCreamPersonality where
  name : String
  emoji : String
  description : String
  color : String
  gradient : String
  insights : List String
deriving Repr, DecidableEq

/-- The fixed all-skipped easter-egg personality. -/
def emptyConePersonality : IceCreamPersonality :=
  { name := "Empty Ice Cream Cone 🍦💨"
    emoji := "🙈💔"
    description := "Looks like you\x27re as empty as this empty ice cream cone! You skipped everything! Maybe you\x27re just too mysterious for our AI to figure out, or perhaps you\x27re saving all your decisions for something really important. Either way, you\x27ve mastered the art of beautiful nothingness!"
    color := "#95a5a6"
    gradient := "linear-gradient(135deg, #bdc3c7, #2c3e50)"
    insights := [
      "You\x27re a master of avoidance! 🦘",
      "Decision paralysis or pure genius? We may never know! 🤷‍♂️",
      "You keep everyone guessing with your mysterious ways! 🕵️‍♂️",
      "Maybe you\x27re just too cool for regular ice cream choices! 😎"] }

/-- The fixed mostly-skipped personality. -/
def mysteriousSkipperPersonality : IceCreamPersonality :=
  { name := "The Mysterious Skipper 🎭🦘"
    emoji := "🤷‍♂️✨"
    description := "You\x27re beautifully unpredictable! With all that skipping, you keep everyone guessing. You march to the beat of your own drum and refuse to be put in a box. Decision avoidance is your superpower!"
    color := "#9b59b6"
    gradient := "linear-gradient(135deg, #9b59b6, #8e44ad)"
    insights := [
      "You\x27re wonderfully unpredictable! 🎲",
      "Master of keeping people on their toes! 💃",
      "Your indecision is a form of art! 🎨",
      "Rules are more like... guidelines to you! 🏴‍☠️"] }

/-- The personality returned when no valid selection remains. -/
def pureMysteryPersonality : IceCreamPersonality :=
  { name := "Pure Mystery 🕵️‍♂️🔮"
    emoji := "❓💫"
    description := "You\x27re an enigma wrapped in a riddle! We literally have no data on you!"
    color := "#34495e"
    gradient := "linear-gradient(135deg, #2c3e50, #34495e)"
    insights := ["You\x27re completely unknowable! And that\x27s fascinating! 🌌"] }

/-- One entry of the fixed `combinations` table. -/
structure ComboEntry where
  name : String
  emoji : String
  description : String
  color : String
  gradient : String
deriving Repr, DecidableEq

/-- `combinations["Classic-Light-Smooth-Caramel"]`, also the documented
default entry used on a key miss. -/
def goldenEleganceEntry : ComboEntry :=
  ⟨"Golden Elegance Swirl 🌟🍯", "👸🍦",
   "Timeless beauty with sophisticated taste", "#ffd700",
   "linear-gradient(135deg, #ffd700, #ff8f00)"⟩

/-- The fixed 4-entry combination table keyed
`"{style}-{sweetness}-{texture}-{topping}"`. -/
def combinations : List (String × ComboEntry) := [
  ("Adventure-Rich-Crunchy-Sprinkles",
   ⟨"Rainbow Hero Crunch 🌈💥", "🦸‍♂️🍦",
    "Bold adventurer with a sweet, colorful soul", "#ff6b6b",
    "linear-gradient(135deg, #ff6b6b, #4ecdc4)"⟩),
  ("Adventure-Rich-Crunchy-Caramel",
   ⟨"Caramel Warrior Blast 🍯⚡", "⚔️🍦",
    "Fierce adventurer with refined taste", "#f39c12",
    "linear-gradient(135deg, #f39c12, #e74c3c)"⟩),
  ("Classic-Light-Smooth-Sprinkles",
   ⟨"Classic Rainbow Dream 🍓✨", "👑🍦",
    "Elegant soul with a playful heart", "#e91e63",
    "linear-gradient(135deg, #e91e63, #9c27b0)"⟩),
  ("Classic-Light-Smooth-Caramel", goldenEleganceEntry)]

/-- `combinations[key] || combinations["Classic-Light-Smooth-Caramel"]`. -/
def lookupCombo (key : String) : ComboEntry :=
  match combinations.lookup key with
  | some e => e
  | none => goldenEleganceEntry

/-- `generateCombinationPersonality`. -/
def generateCombinationPersonality (style sweetness texture topping : String)
    (isPartiallyRandom : Bool) (skipCount : Nat) : IceCreamPersonality :=
  let key := style ++ "-" ++ sweetness ++ "-" ++ texture ++ "-" ++ topping
  let personality := lookupCombo key
  let finalDescription :=
    if isPartiallyRandom ∧ skipCount > 0 then
      personality.description ++ " With " ++ toString skipCount ++ " skip" ++
        (if skipCount > 1 then "s" else "") ++ ", you added some mystery to your flavor journey!"
    else personality.description
  { name := personality.name
    emoji := personality.emoji
    description := finalDescription
    color := personality.color
    gradient := personality.gradient
    insights := [
      style ++ " + " ++ sweetness ++ " + " ++ texture ++ " tells me you\x27re someone who " ++
        (if style = "Adventure" then "loves bold experiences" else "appreciates timeless beauty") ++ ".",
      "Your " ++ sweetness.toLower ++ " preference shows you " ++
        (if sweetness = "Rich" then "embrace intensity and depth" else "value balance and freshness") ++ ".",
      "The " ++ texture.toLower ++ " texture choice reveals you " ++
        (if texture = "Smooth" then "appreciate refinement and elegance" else "enjoy surprises and complexity") ++ ".",
      "And " ++ topping.toLower ++ " on top? That\x27s pure " ++
        (if topping = "Sprinkles" then "joy and playfulness" else "sophistication and warmth") ++ "!"] ++
      (if isPartiallyRandom then
        ["Your " ++ toString skipCount ++ " skip" ++ (if skipCount > 1 then "s" else "") ++
          " added an element of beautiful unpredictability! 🎲"]
       else []) }

/-- The 8 known flavor tags (`availableFlavors` in the padding branch). -/
def availableFlavors : List String :=
  ["Adventure", "Classic", "Light", "Rich", "Smooth", "Crunchy", "Sprinkles", "Caramel"]

/-- Number of `"Skip"` entries of a selection list. -/
def skipCountOf (sel : List String) : Nat :=
  (sel.filter (fun s => s == "Skip")).length

/-- The `while (filledSelections.length < 4)` loop: pad the skip-filtered
selections at the end with uniformly drawn flavor tags until 4 remain. -/
def fillSelections (sel : List String) (r : Rng) : List String × Rng :=
  if sel.length < 4 then
    let p := r.next
    let randomFlavor := availableFlavors.getD (randIndex p.1 availableFlavors.length) ""
    fillSelections (sel ++ [randomFlavor]) p.2
  else (sel, r)
termination_by 4 - sel.length
decreasing_by simp_wf; omega

/-- `generatePersonality`.  The JS guard
`skipCount > playerSelections.length / 2` divides over the reals, so it is
embedded as `2 * skipCount > length`. -/
def generatePersonality (playerSelections : List String) (r : Rng) :
    IceCreamPersonality × Rng :=
  let allSkipped := playerSelections.all (fun s => s == "Skip")
  if allSkipped then (emptyConePersonality, r)
  else
    let skipCount := skipCountOf playerSelections
    if 2 * skipCount > playerSelections.length then (mysteriousSkipperPersonality, r)
    else
      let validSelections := playerSelections.filter (fun s => s != "Skip")
      if validSelections.length > 0 ∧ validSelections.length < 4 then
        let pf := fillSelections validSelections r
        (generateCombinationPersonality (pf.1.getD 0 "") (pf.1.getD 1 "")
          (pf.1.getD 2 "") (pf.1.getD 3 "") true skipCount, pf.2)
      else if validSelections.length = 0 then (pureMysteryPersonality, r)
      else
        (generateCombinationPersonality (validSelections.getD 0 "") (validSelections.getD 1 "")
          (validSelections.getD 2 "") (validSelections.getD 3 "") false skipCount, r)

/-- `List.lookup` only returns values stored in the association list. -/
theorem lookup_mem_pairs (l : List (String × ComboEntry)) (k : String) (v : ComboEntry)
    (h : l.lookup k = some v) : (k, v) ∈ l := by
  induction l with
  | nil => simp [List.lookup] at h
  | cons hd tl ih =>
    rw [List.lookup] at h
    by_cases hk : k == hd.1
    · simp [hk] at h
      have hk' : k = hd.1 := by simpa using hk
      have hkv : (k, v) = hd := by rw [hk', ← h]
      rw [hkv]
      exact List.mem_cons_self _ _
    · simp [hk] at h
      exact List.mem_cons_of_mem _ (ih h)

/-- Every `lookupCombo` result is an entry of the fixed table (the default
entry is itself the table's `"Classic-Light-Smooth-Caramel"` row). -/
theorem lookupCombo_mem (k : String) : lookupCombo k ∈ combinations.map Prod.snd := by
  unfold lookupCombo
  cases hk : combinations.lookup k with
  | none => decide
  | some e => exact List.mem_map.mpr ⟨(k, e), lookup_mem_pairs _ _ _ hk, rfl⟩

/-- None of the 8 flavor tags is the `"Skip"` sentinel. -/
theorem mem_flavors_ne_skip {x : String} (h : x ∈ availableFlavors) : x ≠ "Skip" := by
  fin_cases h <;> decide

/-- C6: on the all-skipped selection list, `generatePersonality` returns
the fixed "Empty Ice Cream Cone" personality, identically for every random
stream and without consuming a draw; the player's name is not even an
input of the function. -/
theorem C6_all_skip_empty_cone (r : Rng) :
    generatePersonality ["Skip", "Skip", "Skip", "Skip"] r = (emptyConePersonality, r) := rfl

/-- C7, counterexample to the claim as stated: the all-skipped list has
skip count `4 > 4 / 2`, yet `generatePersonality` returns the "Empty Ice
Cream Cone" personality (the all-skipped branch is checked first), not
"The Mysterious Skipper". -/
theorem C7_counterexample :
    2 * skipCountOf ["Skip", "Skip", "Skip", "Skip"] >
      (["Skip", "Skip", "Skip", "Skip"] : List String).length ∧
    (generatePersonality ["Skip", "Skip", "Skip", "Skip"] ⟨fun _ => 0, 0⟩).1 ≠
      mysteriousSkipperPersonality := by
  constructor
  · decide
  · intro h
    have : emptyConePersonality = mysteriousSkipperPersonality := h
    simp [emptyConePersonality, mysteriousSkipperPersonality] at this

/-- C7 (amended): on every selection list whose skip count exceeds half
the length and which is not entirely `"Skip"`, `generatePersonality`
returns the fixed "The Mysterious Skipper" personality, for every random
stream and without consuming a draw. -/
theorem C7_mostly_skipped (sel : List String) (r : Rng)
    (hnotall : sel.all (fun s => s == "Skip") = false)
    (hmost : 2 * skipCountOf sel > sel.length) :
    generatePersonality sel r = (mysteriousSkipperPersonality, r) := by
  unfold generatePersonality
  rw [hnotall]
  simp only [Bool.false_eq_true, if_false]
  rw [if_pos hmost]

/-- Witness for C7 (amended): 3 skips out of 4. -/
theorem C7_mostly_skipped_witness :
    generatePersonality ["Skip", "Skip", "Skip", "Adventure"] ⟨fun _ => 0, 0⟩ =
      (mysteriousSkipperPersonality, ⟨fun _ => 0, 0⟩) :=
  C7_mostly_skipped _ _ (by decide) (by decide)

/-- With no `"Skip"` among exactly 4 selections, `generatePersonality`
reaches the regular combination branch positionally. -/
theorem generatePersonality_no_skip (s1 s2 s3 s4 : String) (r : Rng)
    (h1 : s1 ≠ "Skip") (h2 : s2 ≠ "Skip") (h3 : s3 ≠ "Skip") (h4 : s4 ≠ "Skip") :
    generatePersonality [s1, s2, s3, s4] r =
      (generateCombinationPersonality s1 s2 s3 s4 false 0, r) := by
  have b1 : (s1 == "Skip") = false := by simp [h1]
  have b2 : (s2 == "Skip") = false := by simp [h2]
  have b3 : (s3 == "Skip") = false := by simp [h3]
  have b4 : (s4 == "Skip") = false := by simp [h4]
  unfold generatePersonality
  simp [skipCountOf, bne, b1, b2, b3, b4, h1, h2, h3, h4]

/-- C8: for every 4-tuple of selections drawn from the 8 known flavor
tags, `generatePersonality` returns a personality whose name, emoji and
description are those of the `"{style}-{sweetness}-{texture}-{topping}"`
lookup in the fixed combination table with its documented default on a key
miss — and that looked-up entry is always a row of the fixed table. -/
theorem C8_combination_from_table (s1 s2 s3 s4 : String) (r : Rng)
    (h1 : s1 ∈ availableFlavors) (h2 : s2 ∈ availableFlavors)
    (h3 : s3 ∈ availableFlavors) (h4 : s4 ∈ availableFlavors) :
    ((generatePersonality [s1, s2, s3, s4] r).1).name =
      (lookupCombo (s1 ++ "-" ++ s2 ++ "-" ++ s3 ++ "-" ++ s4)).name ∧
    ((generatePersonality [s1, s2, s3, s4] r).1).emoji =
      (lookupCombo (s1 ++ "-" ++ s2 ++ "-" ++ s3 ++ "-" ++ s4)).emoji ∧
    ((generatePersonality [s1, s2, s3, s4] r).1).description =
      (lookupCombo (s1 ++ "-" ++ s2 ++ "-" ++ s3 ++ "-" ++ s4)).description ∧
    lookupCombo (s1 ++ "-" ++ s2 ++ "-" ++ s3 ++ "-" ++ s4) ∈ combinations.map Prod.snd := by
  rw [generatePersonality_no_skip s1 s2 s3 s4 r (mem_flavors_ne_skip h1)
    (mem_flavors_ne_skip h2) (mem_flavors_ne_skip h3) (mem_flavors_ne_skip h4)]
  refine ⟨?_, ?_, ?_, lookupCombo_mem _⟩ <;> simp [generateCombinationPersonality]

/-- Witness for C8 at the `Adventure-Rich-Crunchy-Sprinkles` tuple. -/
theorem C8_combination_from_table_witness :
    ((generatePersonality ["Adventure", "Rich", "Crunchy", "Sprinkles"] ⟨fun _ => 0, 0⟩).1).name =
      (lookupCombo ("Adventure" ++ "-" ++ "Rich" ++ "-" ++ "Crunchy" ++ "-" ++ "Sprinkles")).name ∧
    ((generatePersonality ["Adventure", "Rich", "Crunchy", "Sprinkles"] ⟨fun _ => 0, 0⟩).1).emoji =
      (lookupCombo ("Adventure" ++ "-" ++ "Rich" ++ "-" ++ "Crunchy" ++ "-" ++ "Sprinkles")).emoji ∧
    ((generatePersonality ["Adventure", "Rich", "Crunchy", "Sprinkles"] ⟨fun _ => 0, 0⟩).1).description =
      (lookupCombo ("Adventure" ++ "-" ++ "Rich" ++ "-" ++ "Crunchy" ++ "-" ++ "Sprinkles")).description ∧
    lookupCombo ("Adventure" ++ "-" ++ "Rich" ++ "-" ++ "Crunchy" ++ "-" ++ "Sprinkles") ∈
      combinations.map Prod.snd :=
  C8_combination_from_table "Adventure" "Rich" "Crunchy" "Sprinkles" ⟨fun _ => 0, 0⟩
    (by decide) (by decide) (by decide) (by decide)

/-- C10: on a 4-round selection list whose single skip was round 1, the
roles are assigned positionally from the skip-filtered list padded at the
end with a random flavor draw: style is the round-2 choice, sweetness the
round-3 choice, texture the round-4 choice, and the topping is the random
filler tag — roles are not aligned with the original round categories. -/
theorem C10_positional_roles (x y z : String) (r : Rng)
    (hx : x ≠ "Skip") (hy : y ≠ "Skip") (hz : z ≠ "Skip")
    (hq0 : 0 ≤ r.seq r.idx) (hq1 : r.seq r.idx < 1) :
    ∃ w ∈ availableFlavors,
      fillSelections [x, y, z] r = ([x, y, z, w], r.next.2) ∧
      generatePersonality ["Skip", x, y, z] r =
        (generateCombinationPersonality x y z w true 1, r.next.2) := by
  have b1 : (x == "Skip") = false := by simp [hx]
  have b2 : (y == "Skip") = false := by simp [hy]
  have b3 : (z == "Skip") = false := by simp [hz]
  have hlt : randIndex (r.seq r.idx) availableFlavors.length < availableFlavors.length :=
    randIndex_lt _ _ hq0 hq1 (by decide)
  set w := availableFlavors.getD (randIndex (r.seq r.idx) availableFlavors.length) "" with hw
  have hmem : w ∈ availableFlavors := by
    rw [hw, List.getD_eq_getElem _ _ hlt]
    exact List.getElem_mem hlt
  have hfill : fillSelections [x, y, z] r = ([x, y, z, w], r.next.2) := by
    rw [fillSelections, if_pos (by simp : ([x, y, z] : List String).length < 4)]
    rw [fillSelections]
    simp [Rng.next, hw]
  refine ⟨w, hmem, hfill, ?_⟩
  unfold generatePersonality
  simp [skipCountOf, bne, b1, b2, b3, hx, hy, hz, hfill]

/-- Witness for C10 at a concrete skip-then-three-choices list. -/
theorem C10_positional_roles_witness :
    ∃ w ∈ availableFlavors,
      fillSelections ["Adventure", "Rich", "Crunchy"] (⟨fun _ => 0, 0⟩ : Rng) =
        (["Adventure", "Rich", "Crunchy", w], (⟨fun _ => 0, 0⟩ : Rng).next.2) ∧
      generatePersonality ["Skip", "Adventure", "Rich", "Crunchy"] ⟨fun _ => 0, 0⟩ =
        (generateCombinationPersonality "Adventure" "Rich" "Crunchy" w true 1,
          (⟨fun _ => 0, 0⟩ : Rng).next.2) :=
  C10_positional_roles "Adventure" "Rich" "Crunchy" ⟨fun _ => 0, 0⟩
    (by decide) (by decide) (by decide) (by norm_num) (by norm_num)

/-! ## Game state machine

Embeds the `AIStudio` component state of `src/pages/AIStudio.tsx`: the
`gameState` / `players` / cursor `useState` cells become one `GameSt`
record, and the event handlers become state transformers. -/

/-- One entry of the `GameInventory` map of `useIngredientsInventory`. -/
structure GameInventoryItem where
  available : Nat
  price : ℚ
  description : String
  allergies : List String
deriving Repr, DecidableEq

/-- JS object access `inventory[key]` on the string-keyed inventory map. -/
def lookupInv (inventory : List (String × GameInventoryItem)) (k : String) :
    Option GameInventoryItem :=
  inventory.lookup k

structure AIInteraction where
  selection : String
  aiThought : String
  aiEmoji : String
  aiSteps : List String
  round : Nat
  timestamp : Nat
deriving Repr, DecidableEq

structure Player where
  id : String
  name : String
  selections : List String
  totalCost : ℚ
  aiInteractions : List AIInteraction
  generatedImageUrl : Option String := none
deriving Repr, DecidableEq

inductive GameState
  | setup | welcome | playing | thinking | reveal
deriving Repr, DecidableEq

structure GameSt where
  gameState : GameState
  players : List Player
  currentPlayerIndex : Nat
  currentRoundIndex : Nat
  currentThinking : Option AIThoughtPattern := none
deriving Repr, DecidableEq

structure ImageChoice where
  id : String
  image : String
  title : String
  description : String
  value : String
deriving Repr, DecidableEq

structure Round where
  id : String
  category : String
  question : String
  choices : List ImageChoice
deriving Repr, DecidableEq

/-- The fixed 4-round configuration (style, sweetness, texture, toppings);
imported image assets are embedded as their file names. -/
def rounds : List Round := [
  ⟨"style", "", "What feels right to you?",
    [⟨"adventure", "adventure-action.webp", "", "", "Adventure"⟩,
     ⟨"classic", "classic-retro.webp", "", "", "Classic"⟩]⟩,
  ⟨"sweetness", "", "What feels right to you?",
    [⟨"light", "light-fruit.webp", "", "", "Light"⟩,
     ⟨"rich", "rich-chocolate.jpg", "", "", "Rich"⟩]⟩,
  ⟨"texture", "", "What feels right to you?",
    [⟨"smooth", "smooth-cream.webp", "", "", "Smooth"⟩,
     ⟨"crunchy", "crunchy-nuts.jpeg", "", "", "Crunchy"⟩]⟩,
  ⟨"toppings", "", "What feels right to you?",
    [⟨"sprinkles", "rainbow-sprinkles.jpg", "", "", "Sprinkles"⟩,
     ⟨"caramel", "caramel-drizzle.webp", "", "", "Caramel"⟩]⟩]

/-- `isAvailable`: the chosen flavor's inventory entry exists and has
stock (`ingredient && ingredient.available > 0`). -/
def isAvailable (inventory : List (String × GameInventoryItem))
    (choice : ImageChoice) : Bool :=
  match lookupInv inventory choice.value with
  | some ingredient => decide (0 < ingredient.available)
  | none => false

/-- `handleSelection`.  Returns the new state, the advanced random stream,
and whether the guard `!currentPlayer || !isAvailable(choice)` fired the
out-of-stock toast and returned early.  The inner `none` arm is
unreachable (a positive `isAvailable` check implies the entry exists); the
`localStorage` write has no game-state effect and is not modelled. -/
def handleSelection (inventory : List (String × GameInventoryItem))
    (choice : ImageChoice) (now : Nat) (r : Rng) (st : GameSt) :
    GameSt × Rng × Bool :=
  match st.players.get? st.currentPlayerIndex with
  | none => (st, r, true)
  | some currentPlayer =>
    if isAvailable inventory choice = false then (st, r, true)
    else
      match lookupInv inventory choice.value with
      | none => (st, r, true)
      | some ingredient =>
        let ctx : SelectionContext :=
          { currentSelection := choice.value
            previousSelections := currentPlayer.selections
            roundNumber := st.currentRoundIndex + 1
            playerName := currentPlayer.name }
        let pc := generateConversation ctx r
        let aiInteraction : AIInteraction :=
          { selection := choice.value
            aiThought := pc.1.finalResponse.text
            aiEmoji := pc.1.finalResponse.emoji
            aiSteps := pc.1.steps.map AIThoughtStep.text
            round := st.currentRoundIndex + 1
            timestamp := now }
        let updatedPlayer : Player :=
          { currentPlayer with
            selections := currentPlayer.selections ++ [choice.value]
            totalCost := currentPlayer.totalCost + ingredient.price
            aiInteractions := currentPlayer.aiInteractions ++ [aiInteraction] }
        let updatedPlayers := st.players.map fun p =>
          if p.id == currentPlayer.id then updatedPlayer else p
        ({ st with players := updatedPlayers
                   gameState := .thinking
                   currentThinking := some pc.1 }, pc.2, false)

/-- `handleThinkingComplete` called with no processing result (the spec's
`advance()` operation): the backend-result and error branches are skipped
and only the round/player cursor logic runs. -/
def handleThinkingComplete (st : GameSt) : GameSt :=
  if st.currentRoundIndex < rounds.length - 1 then
    { st with currentRoundIndex := st.currentRoundIndex + 1, gameState := .playing }
  else if st.currentPlayerIndex < st.players.length - 1 then
    { st with currentPlayerIndex := st.currentPlayerIndex + 1
              currentRoundIndex := 0
              gameState := .playing }
  else
    { st with gameState := .reveal }

/-- C2: selecting a choice whose inventory entry exists with
`available == 0` leaves the entire game state (players, selections,
totalCost, cursors, gameState) and the random stream unchanged and takes
the out-of-stock notification path (final `true`). -/
theorem C2_out_of_stock_unchanged (inventory : List (String × GameInventoryItem))
    (choice : ImageChoice) (now : Nat) (r : Rng) (st : GameSt)
    (ing : GameInventoryItem)
    (hing : lookupInv inventory choice.value = some ing)
    (hzero : ing.available = 0) :
    handleSelection inventory choice now r st = (st, r, true) := by
  have hav : isAvailable inventory choice = false := by
    simp [isAvailable, hing, hzero]
  unfold handleSelection
  cases hcp : st.players.get? st.currentPlayerIndex with
  | none => rfl
  | some cp => simp [hav]

/-- Witness for C2 at a concrete one-player state with a depleted
ingredient. -/
theorem C2_out_of_stock_unchanged_witness :
    handleSelection [("Adventure", ⟨0, 15, "Bold and daring flavors", []⟩)]
      ⟨"adventure", "adventure-action.webp", "", "", "Adventure"⟩ 0 ⟨fun _ => 0, 0⟩
      ⟨.playing, [⟨"player_1", "Amy", [], 0, [], none⟩], 0, 0, none⟩ =
      (⟨.playing, [⟨"player_1", "Amy", [], 0, [], none⟩], 0, 0, none⟩, ⟨fun _ => 0, 0⟩, true) :=
  C2_out_of_stock_unchanged _ _ 0 _ _ ⟨0, 15, "Bold and daring flavors", []⟩ rfl rfl

/-- C1: a non-skip selection of an in-stock choice appends exactly the
choice's value to the current player's selections, adds exactly the
inventory price read at call time to that player's `totalCost`, and leaves
every other player record unchanged (player ids are unique by
construction, `player_${index+1}`). -/
theorem C1_selection_appends (inventory : List (String × GameInventoryItem))
    (choice : ImageChoice) (now : Nat) (r : Rng) (st : GameSt)
    (cp : Player) (ing : GameInventoryItem)
    (hcp : st.players.get? st.currentPlayerIndex = some cp)
    (hing : lookupInv inventory choice.value = some ing)
    (havail : 0 < ing.available)
    (huniq : ∀ j p, st.players.get? j = some p → p.id = cp.id →
      j = st.currentPlayerIndex) :
    (∃ cp', ((handleSelection inventory choice now r st).1).players.get?
        st.currentPlayerIndex = some cp' ∧
      cp'.selections = cp.selections ++ [choice.value] ∧
      cp'.totalCost = cp.totalCost + ing.price) ∧
    (∀ j, j ≠ st.currentPlayerIndex →
      ((handleSelection inventory choice now r st).1).players.get? j =
        st.players.get? j) := by
  have hav : isAvailable inventory choice = true := by
    unfold isAvailable
    rw [hing]
    simpa using havail
  have hnotfalse : ¬ (isAvailable inventory choice = false) := by simp [hav]
  unfold handleSelection
  simp only [hcp, hing]
  rw [if_neg hnotfalse]
  constructor
  · rw [List.get?_map, hcp]
    refine ⟨_, rfl, ?_, ?_⟩ <;> simp
  · intro j hj
    rw [List.get?_map]
    cases hp : st.players.get? j with
    | none => rfl
    | some p =>
      have hne : ¬ ((p.id == cp.id) = true) := by
        simp only [beq_iff_eq]
        intro he
        exact hj (huniq j p hp he)
      simp only [Option.map_some']
      rw [if_neg hne]

/-- Witness for C1 at a concrete two-player state. -/
theorem C1_selection_appends_witness :
    (∃ cp', ((handleSelection [("Adventure", ⟨4, 15, "Bold and daring flavors", []⟩)]
        ⟨"adventure", "adventure-action.webp", "", "", "Adventure"⟩ 0 ⟨fun _ => 0, 0⟩
        ⟨.playing, [⟨"player_1", "Amy", [], 0, [], none⟩, ⟨"player_2", "Bo", [], 0, [], none⟩],
          0, 0, none⟩).1).players.get? 0 = some cp' ∧
      cp'.selections = ([] : List String) ++ ["Adventure"] ∧
      cp'.totalCost = (0 : ℚ) + 15) ∧
    (∀ j, j ≠ 0 →
      ((handleSelection [("Adventure", ⟨4, 15, "Bold and daring flavors", []⟩)]
        ⟨"adventure", "adventure-action.webp", "", "", "Adventure"⟩ 0 ⟨fun _ => 0, 0⟩
        ⟨.playing, [⟨"player_1", "Amy", [], 0, [], none⟩, ⟨"player_2", "Bo", [], 0, [], none⟩],
          0, 0, none⟩).1).players.get? j =
        ([⟨"player_1", "Amy", [], 0, [], none⟩,
          ⟨"player_2", "Bo", [], 0, [], none⟩] : List Player).get? j) :=
  C1_selection_appends _ _ 0 _
    ⟨.playing, [⟨"player_1", "Amy", [], 0, [], none⟩, ⟨"player_2", "Bo", [], 0, [], none⟩],
      0, 0, none⟩
    ⟨"player_1", "Amy", [], 0, [], none⟩ ⟨4, 15, "Bold and daring flavors", []⟩
    rfl rfl (by decide)
    (by
      intro j p hj hid
      match j, hj with
      | 0, _ => rfl
      | 1, hj => simp at hj; rw [← hj] at hid; simp at hid
      | (n+2), hj => simp at hj)

/-- Cursor invariant: starting from the round-0/player-0 `playing` state,
`k < 4 × N` advances land on player `k / 4`, round `k % 4`, still playing,
with the roster untouched. -/
theorem advance_iterate (ps : List Player) (ct : Option AIThoughtPattern) :
    ∀ k, k < 4 * ps.length →
      handleThinkingComplete^[k] ⟨.playing, ps, 0, 0, ct⟩ =
        ⟨.playing, ps, k / 4, k % 4, ct⟩ := by
  intro k
  induction k with
  | zero => intro _; simp
  | succ n ih =>
    intro hk
    rw [Function.iterate_succ_apply', ih (by omega)]
    unfold handleThinkingComplete
    have hr4 : rounds.length = 4 := rfl
    simp only [hr4]
    by_cases hc : n % 4 < 4 - 1
    · rw [if_pos hc]
      simp only [GameSt.mk.injEq, and_true, true_and]
      constructor <;> omega
    · rw [if_neg hc]
      by_cases hp2 : n / 4 < ps.length - 1
      · rw [if_pos hp2]
        simp only [GameSt.mk.injEq, and_true, true_and]
        constructor <;> omega
      · exfalso
        omega

/-- C3: with `N ≥ 1` players and the 4 configured rounds, exactly
`rounds.length × N` advances from game start reach the `reveal` state, and
no earlier advance produces `reveal`. -/
theorem C3_reveal_after_all_turns (ps : List Player) (ct : Option AIThoughtPattern)
    (N : Nat) (hN : ps.length = N) (hpos : 0 < N) :
    (handleThinkingComplete^[rounds.length * N] ⟨.playing, ps, 0, 0, ct⟩).gameState
      = .reveal ∧
    ∀ k, k < rounds.length * N →
      (handleThinkingComplete^[k] ⟨.playing, ps, 0, 0, ct⟩).gameState ≠ .reveal := by
  have hr4 : rounds.length = 4 := rfl
  subst hN
  constructor
  · have h1 : rounds.length * ps.length = (4 * ps.length - 1) + 1 := by
      rw [hr4]; omega
    rw [h1, Function.iterate_succ_apply',
      advance_iterate ps ct (4 * ps.length - 1) (by omega)]
    unfold handleThinkingComplete
    have e1 : (4 * ps.length - 1) % 4 = 3 := by omega
    have e2 : (4 * ps.length - 1) / 4 = ps.length - 1 := by omega
    simp only [e1, e2, hr4]
    rw [if_neg (by omega), if_neg (by omega)]
  · intro k hk
    rw [hr4] at hk
    rw [advance_iterate ps ct k hk]
    simp

/-- Witness for C3 with a single player. -/
theorem C3_reveal_after_all_turns_witness :
    (handleThinkingComplete^[rounds.length * 1]
      ⟨.playing, [⟨"player_1", "Amy", [], 0, [], none⟩], 0, 0, none⟩).gameState = .reveal ∧
    ∀ k, k < rounds.length * 1 →
      (handleThinkingComplete^[k]
        ⟨.playing, [⟨"player_1", "Amy", [], 0, [], none⟩], 0, 0, none⟩).gameState ≠ .reveal :=
  C3_reveal_after_all_turns [⟨"player_1", "Amy", [], 0, [], none⟩] none 1 rfl (by decide)

end Scoops
